import Mathlib

/-!
# Verification of the brickv firmware flashing engine

Shallow embedding of the flashing state machines of
`src/brickv/flashing.py` (classic Bricklet plugin flashing, Co-MCU/XMC
bootloader flashing, TNG module flashing, UID writing), together with
theorems settling the specified properties.

Device interaction (the `bricklet`/`brick` proxy calls) is modelled by
explicit oracle functions passed as parameters: an oracle maps a call
index or position to the result the device would return (`none` /
`.error` standing for a raised exception).  Each embedded operation
returns its outcome together with a trace of the device calls it issued,
so that call-count properties can be stated.
-/

set_option maxRecDepth 4000

namespace Brickv

/-! ## Co-MCU flashing: constants and the page-write loop

From `write_bricklet_plugin_comcu` (flashing.py lines 1528-1596).
`MAX_SKIPPED_PAGES = 20 * 1024 / 256` is exactly `80` (the Python float
division is exact here). -/

def XMC1_PAGE_SIZE : Nat := 256

def MAX_SKIPPED_ZERO_BYTES : Nat := 20 * 1024

def MAX_SKIPPED_PAGES : Nat := MAX_SKIPPED_ZERO_BYTES / XMC1_PAGE_SIZE

/-- Translates `all(b == 0 for b in plugin[position:position+XMC1_PAGE_SIZE])`. -/
def pageIsZero (plugin : List Nat) (position : Nat) : Bool :=
  (((plugin.drop position).take XMC1_PAGE_SIZE).all (fun b => b == 0))

/-- Only `attempt == 0` selects `allow_skipping = True`; the second outer
attempt has `allow_skipping = False` (flashing.py lines 1541-1547). -/
def comcuAllowSkipping (attempt : Nat) : Bool := attempt == 0

/-- The body of the `while position < plugin_len` page-write loop
(flashing.py lines 1563-1596), returning the list of page `position`s
that are written (not skipped).  `remaining` is the number of pages left
(`(plugin_len - position) / 256`); since `plugin_len` is a multiple of
the page size and each iteration advances `position` by exactly one page,
this fuel is exact. -/
def comcuWriteGo (plugin : List Nat) (allow_skipping : Bool) :
    Nat → Nat → Nat → List Nat
  | 0, _, _ => []
  | remaining + 1, position, skipped_pages =>
    if allow_skipping && decide (skipped_pages < MAX_SKIPPED_PAGES) &&
        decide (plugin.length - position > XMC1_PAGE_SIZE) &&
        pageIsZero plugin position then
      comcuWriteGo plugin allow_skipping remaining (position + XMC1_PAGE_SIZE)
        (skipped_pages + 1)
    else
      position ::
        comcuWriteGo plugin allow_skipping remaining (position + XMC1_PAGE_SIZE) 0

/-- Positions of the pages actually written by one outer attempt of the
Co-MCU page-write loop.  `skipped_pages` starts at
`MAX_SKIPPED_PAGES + 1` ("Force writing the first page.",
flashing.py line 1561). -/
def comcuWrittenPages (plugin : List Nat) (allow_skipping : Bool) : List Nat :=
  comcuWriteGo plugin allow_skipping (plugin.length / XMC1_PAGE_SIZE) 0
    (MAX_SKIPPED_PAGES + 1)

/-- The concrete C2 image: 20 pages of zeros followed by one non-zero
256-byte page (which carries the magic marker so the image is a valid
firmware). -/
def c2Plugin : List Nat :=
  List.replicate 5120 0 ++ ([0x78, 0x56, 0x34, 0x12] ++ List.replicate 252 0)

lemma c2Plugin_eq :
    c2Plugin =
      List.replicate 5120 0 ++ ([0x78, 0x56, 0x34, 0x12] ++ List.replicate 252 0) :=
  rfl

lemma c2Plugin_length : c2Plugin.length = 5376 := by
  rw [c2Plugin_eq]
  rw [List.length_append, List.length_append, List.length_replicate,
    List.length_replicate]
  rfl

lemma XMC1_PAGE_SIZE_eq : XMC1_PAGE_SIZE = 256 := rfl

lemma MAX_SKIPPED_PAGES_eq : MAX_SKIPPED_PAGES = 80 := rfl

/-- A page lying entirely inside a zero-filled prefix is a zero page. -/
lemma pageIsZero_replicate (n : Nat) (rest : List Nat) (pos : Nat)
    (h : pos + 256 ≤ n) :
    pageIsZero (List.replicate n 0 ++ rest) pos = true := by
  have h1 : pos - n = 0 := by omega
  have h3 : 256 - (n - pos) = 0 := by omega
  rw [pageIsZero, XMC1_PAGE_SIZE_eq, List.drop_append_eq_append_drop,
    List.length_replicate, h1, List.drop_zero, List.drop_replicate,
    List.take_append_eq_append_take, List.take_replicate,
    List.length_replicate, h3, List.take_zero, List.append_nil]
  have h2 : min 256 (n - pos) = 256 := by omega
  rw [h2]
  decide

/-- Tail of the C2 run: once the first page has been written, the loop
skips every remaining zero page and writes only the final page at
position `5120`. -/
lemma c2_go_tail (d pos sk : Nat) (hlen : pos + 256 * (d + 1) = 5376)
    (hsk : sk + d = 19) :
    comcuWriteGo c2Plugin true (d + 1) pos sk = [5120] := by
  induction d generalizing pos sk with
  | zero =>
    have hpos : pos = 5120 := by omega
    subst hpos
    have hl : c2Plugin.length - 5120 = 256 := by rw [c2Plugin_length]
    rw [comcuWriteGo,
      if_neg (by rw [hl, XMC1_PAGE_SIZE_eq]; simp)]
    rw [comcuWriteGo]
  | succ k ih =>
    have hz : pageIsZero c2Plugin pos = true := by
      rw [c2Plugin_eq]
      exact pageIsZero_replicate _ _ _ (by omega)
    rw [comcuWriteGo,
      if_pos (by
        rw [hz, MAX_SKIPPED_PAGES_eq, XMC1_PAGE_SIZE_eq, c2Plugin_length]
        simp only [Bool.true_and, Bool.and_true, Bool.and_eq_true,
          decide_eq_true_eq]
        omega)]
    rw [XMC1_PAGE_SIZE_eq]
    exact ih (pos + 256) (sk + 1) (by omega) (by omega)

/-- The written-page trace for the concrete C2 image on the first outer
attempt: only the first page and the final page are written. -/
lemma c2_written : comcuWrittenPages c2Plugin true = [0, 5120] := by
  have hfuel : c2Plugin.length / XMC1_PAGE_SIZE = 21 := by
    rw [c2Plugin_length, XMC1_PAGE_SIZE_eq]
  rw [comcuWrittenPages, hfuel]
  show comcuWriteGo c2Plugin true (20 + 1) 0 (MAX_SKIPPED_PAGES + 1) = [0, 5120]
  rw [comcuWriteGo,
    if_neg (by rw [MAX_SKIPPED_PAGES_eq]; simp)]
  rw [XMC1_PAGE_SIZE_eq]
  show 0 :: comcuWriteGo c2Plugin true (19 + 1) (0 + 256) 0 = [0, 5120]
  rw [c2_go_tail 19 (0 + 256) 0 (by omega) (by omega)]

/-- The final page can never be skipped: when only one page remains,
`plugin_len - position > XMC1_PAGE_SIZE` is false, so the loop writes it.
Invariant proof over the remaining pages. -/
lemma comcuWriteGo_last_mem (plugin : List Nat) (s : Bool) :
    ∀ (remaining position skipped : Nat),
      plugin.length = position + 256 * (remaining + 1) →
      position + 256 * remaining ∈
        comcuWriteGo plugin s (remaining + 1) position skipped := by
  intro remaining
  induction remaining with
  | zero =>
    intro position skipped hlen
    rw [comcuWriteGo,
      if_neg (by
        simp only [Bool.and_eq_true, decide_eq_true_eq, XMC1_PAGE_SIZE_eq]
        rintro ⟨⟨⟨-, -⟩, h⟩, -⟩
        omega)]
    simp
  | succ k ih =>
    intro position skipped hlen
    have heq : position + 256 * (k + 1) = position + 256 + 256 * k := by omega
    rw [comcuWriteGo]
    by_cases h : (s && decide (skipped < MAX_SKIPPED_PAGES) &&
        decide (plugin.length - position > XMC1_PAGE_SIZE) &&
        pageIsZero plugin position) = true
    · rw [if_pos h, XMC1_PAGE_SIZE_eq, heq]
      exact ih (position + 256) (skipped + 1) (by omega)
    · rw [if_neg h, XMC1_PAGE_SIZE_eq, heq]
      exact List.mem_cons_of_mem _ (ih (position + 256) 0 (by omega))

/-- The final page of any page-aligned image is always written. -/
lemma comcuWrittenPages_last (plugin : List Nat) (s : Bool) (k : Nat)
    (hlen : plugin.length = 256 * (k + 1)) :
    256 * k ∈ comcuWrittenPages plugin s := by
  have hfuel : plugin.length / XMC1_PAGE_SIZE = k + 1 := by
    rw [XMC1_PAGE_SIZE_eq, hlen]
    omega
  rw [comcuWrittenPages, hfuel]
  have := comcuWriteGo_last_mem plugin s k 0 (MAX_SKIPPED_PAGES + 1) (by omega)
  simpa using this

/-- The first page is always written, whatever `allow_skipping` is and
even when the first page is all zeros, because `skipped_pages` starts at
`MAX_SKIPPED_PAGES + 1`, above the skip budget. -/
lemma comcuWrittenPages_head (plugin : List Nat) (s : Bool)
    (hlen : 256 ≤ plugin.length) :
    (comcuWrittenPages plugin s).head? = some 0 := by
  have hfuel : plugin.length / XMC1_PAGE_SIZE =
      (plugin.length / XMC1_PAGE_SIZE - 1) + 1 := by
    rw [XMC1_PAGE_SIZE_eq]
    have : 1 ≤ plugin.length / 256 := (Nat.one_le_div_iff (by omega)).2 hlen
    omega
  rw [comcuWrittenPages, hfuel, comcuWriteGo,
    if_neg (by
      simp only [Bool.and_eq_true, decide_eq_true_eq, MAX_SKIPPED_PAGES_eq]
      rintro ⟨⟨⟨-, h⟩, -⟩, -⟩
      omega)]
  rfl

/-- With `allow_skipping = False` (the second outer attempt) no page is
ever skipped: the loop writes every page in order. -/
lemma comcuWriteGo_noskip (plugin : List Nat) :
    ∀ (remaining position skipped : Nat),
      comcuWriteGo plugin false remaining position skipped =
        List.range' position remaining 256 := by
  intro remaining
  induction remaining with
  | zero => intro position skipped; rfl
  | succ k ih =>
    intro position skipped
    rw [comcuWriteGo, if_neg (by simp), XMC1_PAGE_SIZE_eq, List.range'_succ,
      ih (position + 256) 0]

lemma comcuWrittenPages_noskip (plugin : List Nat) :
    comcuWrittenPages plugin false =
      List.range' 0 (plugin.length / 256) 256 := by
  rw [comcuWrittenPages, comcuWriteGo_noskip, XMC1_PAGE_SIZE_eq]

/-- C2: for a firmware image of 20 full 256-byte pages of zeros followed by
one non-zero 256-byte page, the Co-MCU page-write loop issues fewer than 20
page-writes (zero-page skipping engaged), and the final page of any
page-aligned image is always written, never skipped. -/
theorem C2_comcu_zero_page_skipping (plugin : List Nat) (s : Bool) (k : Nat)
    (hlen : plugin.length = 256 * (k + 1)) :
    (comcuWrittenPages c2Plugin true).length < 20 ∧
    (5120 : Nat) ∈ comcuWrittenPages c2Plugin true ∧
    256 * k ∈ comcuWrittenPages plugin s := by
  refine ⟨?_, ?_, comcuWrittenPages_last plugin s k hlen⟩
  · rw [c2_written]
    norm_num
  · rw [c2_written]
    simp

theorem C2_comcu_zero_page_skipping_witness :
    c2Plugin.length = 256 * (20 + 1) ∧
    ((comcuWrittenPages c2Plugin true).length < 20 ∧
     (5120 : Nat) ∈ comcuWrittenPages c2Plugin true ∧
     256 * 20 ∈ comcuWrittenPages c2Plugin true) :=
  ⟨by rw [c2Plugin_length],
   C2_comcu_zero_page_skipping c2Plugin true 20 (by rw [c2Plugin_length])⟩

/-- C9: on every write attempt the first page (offset 0) is always written,
even when it is all zeros, because the skip counter starts above the skip
budget; and on the second outer attempt (`attempt = 1`) skipping is disabled
entirely, so every page is written in order. -/
theorem C9_comcu_first_page_always_written (plugin p2 : List Nat) (s : Bool)
    (hlen : 256 ≤ plugin.length) :
    (comcuWrittenPages plugin s).head? = some 0 ∧
    comcuAllowSkipping 1 = false ∧
    comcuWrittenPages p2 false = List.range' 0 (p2.length / 256) 256 :=
  ⟨comcuWrittenPages_head plugin s hlen, rfl, comcuWrittenPages_noskip p2⟩

theorem C9_comcu_first_page_always_written_witness :
    256 ≤ (List.replicate 256 (0 : Nat)).length ∧
    ((comcuWrittenPages (List.replicate 256 (0 : Nat)) true).head? = some 0 ∧
     comcuAllowSkipping 1 = false ∧
     comcuWrittenPages (List.replicate 256 (0 : Nat)) false =
       List.range' 0 ((List.replicate 256 (0 : Nat)).length / 256) 256) :=
  ⟨by simp,
   C9_comcu_first_page_always_written (List.replicate 256 0)
     (List.replicate 256 0) true (by simp)⟩

/-! ## Co-MCU flashing: bootloader mode retry loops

From `set_comcu_bootloader_mode` (flashing.py lines 1450-1465) and
`wait_for_comcu_bootloader_mode` (lines 1467-1483).  `dev n` is the
device answer to the `n`-th call of the loop; `none` means the call
raised an exception.  The loop counter runs `0, 1, …, 10` and the loop
breaks after a failed try with `counter == 10`, so the fuel `11 - counter`
is exact.  Both functions return their result together with the number of
device calls made. -/

def setComcuGo (dev : Nat → Option Nat) : Nat → Nat → Option Nat × Nat
  | 0, _ => (none, 0)
  | fuel + 1, counter =>
    match dev counter with
    | some r => (some r, 1)
    | none =>
      if counter == 10 then (none, 1)
      else
        let p := setComcuGo dev fuel (counter + 1)
        (p.1, p.2 + 1)

/-- Loop `set_comcu_bootloader_mode`: returns the device reply to the first
successful `set_bootloader_mode` call, or `none` after exhausting all
tries, together with the number of calls issued. -/
def set_comcu_bootloader_mode (dev : Nat → Option Nat) : Option Nat × Nat :=
  setComcuGo dev 11 0

def waitComcuGo (dev : Nat → Option Nat) (mode : Nat) : Nat → Nat → Bool × Nat
  | 0, _ => (false, 0)
  | fuel + 1, counter =>
    match dev counter with
    | some m =>
      if m == mode then (true, 1)
      else if counter == 10 then (false, 1)
      else
        let p := waitComcuGo dev mode fuel (counter + 1)
        (p.1, p.2 + 1)
    | none =>
      if counter == 10 then (false, 1)
      else
        let p := waitComcuGo dev mode fuel (counter + 1)
        (p.1, p.2 + 1)

/-- Loop `wait_for_comcu_bootloader_mode`: polls `get_bootloader_mode` until the
device reports the requested mode; `false` after exhausting all tries. -/
def wait_for_comcu_bootloader_mode (dev : Nat → Option Nat) (mode : Nat) :
    Bool × Nat :=
  waitComcuGo dev mode 11 0

lemma setComcuGo_calls_le (dev : Nat → Option Nat) :
    ∀ fuel counter, (setComcuGo dev fuel counter).2 ≤ fuel := by
  intro fuel
  induction fuel with
  | zero => intro counter; simp [setComcuGo]
  | succ k ih =>
    intro counter
    rw [setComcuGo]
    match h : dev counter with
    | some r => simp
    | none =>
      by_cases hc : counter == 10
      · simp [hc]
      · simp only [hc, if_false, Bool.false_eq_true]
        have := ih (counter + 1)
        omega

lemma waitComcuGo_calls_le (dev : Nat → Option Nat) (mode : Nat) :
    ∀ fuel counter, (waitComcuGo dev mode fuel counter).2 ≤ fuel := by
  intro fuel
  induction fuel with
  | zero => intro counter; simp [waitComcuGo]
  | succ k ih =>
    intro counter
    rw [waitComcuGo]
    match h : dev counter with
    | some m =>
      by_cases hm : m == mode
      · simp [hm]
      · by_cases hc : counter == 10
        · simp [hm, hc]
        · simp only [hm, hc, if_false, Bool.false_eq_true]
          have := ih (counter + 1)
          omega
    | none =>
      by_cases hc : counter == 10
      · simp [hc]
      · simp only [hc, if_false, Bool.false_eq_true]
        have := ih (counter + 1)
        omega

lemma setComcuGo_all_fail (dev : Nat → Option Nat)
    (hdev : ∀ n, dev n = none) :
    ∀ fuel counter, counter + fuel = 11 →
      setComcuGo dev fuel counter = (none, fuel) := by
  intro fuel
  induction fuel with
  | zero => intro counter _; rfl
  | succ k ih =>
    intro counter hc
    rw [setComcuGo, hdev counter]
    by_cases h10 : counter = 10
    · have hk : k = 0 := by omega
      subst h10 hk
      rfl
    · have : (counter == 10) = false := by simp [h10]
      rw [ih (counter + 1) (by omega)]
      simp [this]

lemma waitComcuGo_all_fail (dev : Nat → Option Nat) (mode : Nat)
    (hdev : ∀ n, dev n = none) :
    ∀ fuel counter, counter + fuel = 11 →
      waitComcuGo dev mode fuel counter = (false, fuel) := by
  intro fuel
  induction fuel with
  | zero => intro counter _; rfl
  | succ k ih =>
    intro counter hc
    rw [waitComcuGo, hdev counter]
    by_cases h10 : counter = 10
    · have hk : k = 0 := by omega
      subst h10 hk
      rfl
    · have : (counter == 10) = false := by simp [h10]
      rw [ih (counter + 1) (by omega)]
      simp [this]

/-- C7 counterexample: with a device that never answers, the
mode-transition request (and likewise the confirmation poll) is attempted
11 times — one initial try plus 10 retries — not at most 10. -/
theorem C7_counterexample :
    (set_comcu_bootloader_mode (fun _ => none)).2 = 11 ∧
    (wait_for_comcu_bootloader_mode (fun _ => none) 0).2 = 11 ∧
    ¬((set_comcu_bootloader_mode (fun _ => none)).2 ≤ 10) := by
  have h1 := setComcuGo_all_fail (fun _ => none) (fun _ => rfl) 11 0 rfl
  have h2 := waitComcuGo_all_fail (fun _ => none) 0 (fun _ => rfl) 11 0 rfl
  refine ⟨?_, ?_, ?_⟩ <;>
    simp [set_comcu_bootloader_mode, wait_for_comcu_bootloader_mode, h1, h2]

/-- C7 (amended): each bootloader mode-transition request, and each poll
confirming the requested mode, is attempted at most 11 times (an initial
try plus up to 10 retries, 250ms sleeps between tries); if the device
never confirms, the loop returns failure after exactly 11 tries — it never
polls forever. -/
theorem C7_comcu_poll_bounded (dev dev2 : Nat → Option Nat) (mode mode2 : Nat)
    (hdev2 : ∀ n, dev2 n = none) :
    (set_comcu_bootloader_mode dev).2 ≤ 11 ∧
    (wait_for_comcu_bootloader_mode dev mode).2 ≤ 11 ∧
    set_comcu_bootloader_mode dev2 = (none, 11) ∧
    wait_for_comcu_bootloader_mode dev2 mode2 = (false, 11) :=
  ⟨setComcuGo_calls_le dev 11 0, waitComcuGo_calls_le dev mode 11 0,
   setComcuGo_all_fail dev2 hdev2 11 0 rfl,
   waitComcuGo_all_fail dev2 mode2 hdev2 11 0 rfl⟩

theorem C7_comcu_poll_bounded_witness :
    (∀ n : Nat, (fun _ : Nat => (none : Option Nat)) n = none) ∧
    ((set_comcu_bootloader_mode (fun _ => some 0)).2 ≤ 11 ∧
     (wait_for_comcu_bootloader_mode (fun _ => some 0) 0).2 ≤ 11 ∧
     set_comcu_bootloader_mode (fun _ => none) = (none, 11) ∧
     wait_for_comcu_bootloader_mode (fun _ => none) 0 = (false, 11)) :=
  ⟨fun _ => rfl,
   C7_comcu_poll_bounded (fun _ => some 0) (fun _ => none) 0 0 (fun _ => rfl)⟩

/-! ## Co-MCU flashing: the two outer attempts and the
bootloader-to-firmware transition (flashing.py lines 1539-1648).

`enterBL attempt` tells whether requesting and confirming bootloader mode
succeeded on the given outer attempt; `modeRet attempt` is the status the
device returns for the firmware-mode transition on that attempt (`none` =
the request timed out).  The page writes themselves are modelled by
`comcuWrittenPages` above; here we track how many full write attempts are
performed. -/

/-- Status-code-to-message mapping of flashing.py lines 1614-1623. -/
def comcuErrorStr (mode_ret : Nat) : String :=
  if mode_ret == 1 then "Invalid mode (Error 1)"
  else if mode_ret == 3 then "Entry function not present (Error 3)"
  else if mode_ret == 4 then "Device identifier incorrect (Error 4)"
  else if mode_ret == 5 then "CRC Mismatch (Error 5)"
  else "Error " ++ toString mode_ret

/-- Translates `attempt_str` of flashing.py lines 1542-1546. -/
def comcuAttemptStr (attempt : Nat) : String :=
  if attempt == 0 then "" else " (attempt " ++ toString (attempt + 1) ++ ")"

inductive ComcuResult where
  | ok : ComcuResult
  | fail : String → ComcuResult
  deriving Repr, DecidableEq

/-- The `for attempt in range(2)` loop (flashing.py lines 1541-1636),
recursing over the list of remaining attempt indices (`range(2) = [0, 1]`).
Returns `(.ok flash_success | .error msg, last error_str, write attempts
performed)`; `.error` models an early `return False`, `.ok false` models
falling off the loop with `flash_success` still false (only possible after
a CRC-mismatch `continue` on the last attempt). -/
def comcuOuterLoop (enterBL : Nat → Bool) (modeRet : Nat → Option Nat) :
    List Nat → String → Except String Bool × String × Nat
  | [], es => (.ok false, es, 0)
  | attempt :: rest, es =>
    if !(enterBL attempt) then
      (.error ("Device did not enter bootloader mode in 2.5 seconds" ++
          comcuAttemptStr attempt), es, 0)
    else
      match modeRet attempt with
      | none => (.error "Device did not enter firmware mode in 2.5 seconds",
          es, 1)
      | some r =>
        if r == 0 || r == 2 then (.ok true, es, 1)
        else if r == 5 then
          let p := comcuOuterLoop enterBL modeRet rest (comcuErrorStr r)
          (p.1, p.2.1, p.2.2 + 1)
        else
          (.error ("Could not change from bootloader mode to firmware mode: "
              ++ comcuErrorStr r), comcuErrorStr r, 1)

/-- The full mode-transition state machine around the write loop: two outer
attempts, the `flash_success` check after the loop, and the final
firmware-mode confirmation poll (`waitFW`).  Returns the outcome and the
number of full write attempts performed. -/
def comcuFlashModeMachine (enterBL : Nat → Bool) (modeRet : Nat → Option Nat)
    (waitFW : Bool) : ComcuResult × Nat :=
  let p := comcuOuterLoop enterBL modeRet [0, 1] ""
  match p.1 with
  | .error msg => (.fail msg, p.2.2)
  | .ok true =>
    if waitFW then (.ok, p.2.2)
    else (.fail "Device did not enter firmware mode in 2.5 seconds", p.2.2)
  | .ok false =>
    (.fail ("Could not change from bootloader mode to firmware mode: " ++
        p.2.1), p.2.2)

/-- C1: if the bootloader-to-firmware transition returns status 5 (CRC
mismatch) on the first attempt, a second full write attempt is performed;
status 5 on both attempts terminates in failure reporting the CRC
mismatch; status 0 or 2 on the first attempt succeeds with no second
attempt. -/
theorem C1_comcu_crc_retry (enterBL : Nat → Bool) (modeRet : Nat → Option Nat)
    (hBL : ∀ n, enterBL n = true) :
    (modeRet 0 = some 5 → (comcuFlashModeMachine enterBL modeRet true).2 = 2) ∧
    (modeRet 0 = some 5 → modeRet 1 = some 5 →
      comcuFlashModeMachine enterBL modeRet true =
        (.fail ("Could not change from bootloader mode to firmware mode: " ++
          "CRC Mismatch (Error 5)"), 2)) ∧
    (∀ r, (r = 0 ∨ r = 2) → modeRet 0 = some r →
      comcuFlashModeMachine enterBL modeRet true = (.ok, 1)) := by
  refine ⟨?_, ?_, ?_⟩
  · intro h0
    match h1 : modeRet 1 with
    | none =>
      simp [comcuFlashModeMachine, comcuOuterLoop, hBL, h0, h1, comcuErrorStr]
    | some r1 =>
      by_cases hr : (r1 == 0 || r1 == 2) = true
      · simp [comcuFlashModeMachine, comcuOuterLoop, hBL, h0, h1, hr]
      · by_cases hr5 : (r1 == 5) = true
        · simp [comcuFlashModeMachine, comcuOuterLoop, hBL, h0, h1, hr, hr5]
        · simp [comcuFlashModeMachine, comcuOuterLoop, hBL, h0, h1, hr, hr5]
  · intro h0 h1
    simp [comcuFlashModeMachine, comcuOuterLoop, hBL, h0, h1, comcuErrorStr]
  · rintro r (rfl | rfl) h0 <;>
      simp [comcuFlashModeMachine, comcuOuterLoop, hBL, h0]

theorem C1_comcu_crc_retry_witness :
    (∀ n : Nat, (fun _ : Nat => true) n = true) ∧
    (((fun _ : Nat => some 5) 0 = some 5 →
      (comcuFlashModeMachine (fun _ => true) (fun _ => some 5) true).2 = 2) ∧
     ((fun _ : Nat => some 5) 0 = some 5 → (fun _ : Nat => some 5) 1 = some 5 →
      comcuFlashModeMachine (fun _ => true) (fun _ => some 5) true =
        (.fail ("Could not change from bootloader mode to firmware mode: " ++
          "CRC Mismatch (Error 5)"), 2)) ∧
     (∀ r, (r = 0 ∨ r = 2) → (fun _ : Nat => some 5) 0 = some r →
      comcuFlashModeMachine (fun _ => true) (fun _ => some 5) true =
        (.ok, 1))) :=
  ⟨fun _ => rfl,
   C1_comcu_crc_retry (fun _ => true) (fun _ => some 5) (fun _ => rfl)⟩

/-! ## Co-MCU flashing: the backward magic-marker scan
(flashing.py lines 1516-1537). -/

/-- The test `plugin[i] == 0x12 and plugin[i-1] == 0x34 and
plugin[i-2] == 0x56 and plugin[i-3] == 0x78` of flashing.py line 1519. -/
def magicAt (plugin : List Nat) (i : Nat) : Bool :=
  plugin.getD i 0 == 0x12 && plugin.getD (i - 1) 0 == 0x34 &&
    plugin.getD (i - 2) 0 == 0x56 && plugin.getD (i - 3) 0 == 0x78

/-- Scan `for i in reversed(range(4, len(plugin)-12))`: the greatest matching
index (`regular_plugin_upto`), `none` when the scan finds nothing
(`regular_plugin_upto == -1`). -/
def findMagic (plugin : List Nat) : Option Nat :=
  ((List.range' 4 (plugin.length - 12 - 4)).reverse).find? (magicAt plugin)

/-- An occurrence of the 4-byte marker `0x78 0x56 0x34 0x12` starting at
byte index `j` of the image. -/
def hasMarkerAt (plugin : List Nat) (j : Nat) : Bool :=
  decide (j + 3 < plugin.length) && plugin.getD j 0 == 0x78 &&
    plugin.getD (j + 1) 0 == 0x56 && plugin.getD (j + 2) 0 == 0x34 &&
    plugin.getD (j + 3) 0 == 0x12

inductive ComcuPrecheck where
  | magicError : ComcuPrecheck
  | pageSizeError : ComcuPrecheck
  | proceed : Nat → ComcuPrecheck
  deriving Repr, DecidableEq

/-- The pre-write checks of `write_bricklet_plugin_comcu`: missing magic
marker, then page-size alignment; both abort before any device write. -/
def comcuPrecheck (plugin : List Nat) : ComcuPrecheck :=
  match findMagic plugin with
  | none => .magicError
  | some i =>
    if plugin.length % XMC1_PAGE_SIZE != 0 then .pageSizeError
    else .proceed i

/-- Page writes of the whole comcu operation: none unless the pre-checks
pass. -/
def comcuPageWritesTotal (plugin : List Nat) (allow_skipping : Bool) :
    List Nat :=
  match comcuPrecheck plugin with
  | .proceed _ => comcuWrittenPages plugin allow_skipping
  | _ => []

/-- C6: the firmware boundary is located by scanning the image backward for
the marker `0x78 0x56 0x34 0x12`; if the marker is absent anywhere in the
image, the operation is a hard failure before any page is written. -/
theorem C6_comcu_magic_absent (plugin : List Nat) (s : Bool)
    (habs : ∀ j, j < plugin.length → hasMarkerAt plugin j = false) :
    comcuPrecheck plugin = .magicError ∧
    comcuPageWritesTotal plugin s = [] := by
  have hfind : findMagic plugin = none := by
    rw [findMagic, List.find?_eq_none]
    intro i hi hmag
    rw [List.mem_reverse, List.mem_range'] at hi
    obtain ⟨w, hw, rfl⟩ := hi
    set i := 4 + 1 * w with hidef
    have hi4 : 4 ≤ i := by omega
    have hilen : i + 12 < plugin.length := by omega
    simp only [magicAt, Bool.and_eq_true, beq_iff_eq] at hmag
    obtain ⟨⟨⟨m12, m34⟩, m56⟩, m78⟩ := hmag
    have e1 : i - 3 + 1 = i - 2 := by omega
    have e2 : i - 3 + 2 = i - 1 := by omega
    have e3 : i - 3 + 3 = i := by omega
    have hj := habs (i - 3) (by omega)
    have htrue : hasMarkerAt plugin (i - 3) = true := by
      rw [hasMarkerAt, e1, e2, e3]
      simp only [Bool.and_eq_true, beq_iff_eq, decide_eq_true_eq]
      exact ⟨⟨⟨⟨by omega, m78⟩, m56⟩, m34⟩, m12⟩
    rw [htrue] at hj
    simp at hj
  refine ⟨?_, ?_⟩
  · rw [comcuPrecheck.eq_def, hfind]
  · rw [comcuPageWritesTotal.eq_def, comcuPrecheck.eq_def, hfind]

theorem C6_comcu_magic_absent_witness :
    (∀ j, j < (List.replicate 20 (0 : Nat)).length →
      hasMarkerAt (List.replicate 20 0) j = false) ∧
    (comcuPrecheck (List.replicate 20 0) = .magicError ∧
     comcuPageWritesTotal (List.replicate 20 0) true = []) :=
  ⟨by decide, C6_comcu_magic_absent (List.replicate 20 0) true (by decide)⟩

/-! ## TNG flashing: finalization (flashing.py lines 1426-1444). -/

/-- Status-code-to-message mapping of flashing.py lines 1431-1440. -/
def tngCopyErrorStr (copy_status : Nat) : String :=
  if copy_status == 1 then "Device identifier incorrect (Error 1)"
  else if copy_status == 2 then "Magic number incorrect (Error 2)"
  else if copy_status == 3 then "Length malformed (Error 3)"
  else if copy_status == 4 then "CRC mismatch (Error 4)"
  else "Error " ++ toString copy_status

structure TngFinalizeResult where
  success : Bool
  resetCalled : Bool
  errorMsg : Option String
  deriving Repr, DecidableEq

/-- Handling of `copy_status = bricklet.copy_firmware()`: status 0 resets the
device and succeeds; anything else is terminal failure with the mapped
message and no reset. -/
def tngFinalize (copy_status : Nat) : TngFinalizeResult :=
  if copy_status == 0 then ⟨true, true, none⟩
  else ⟨false, false,
    some ("Could not flash firmware: " ++ tngCopyErrorStr copy_status)⟩

/-- C5: finalize status 0 resets the device and succeeds; status 4 is
terminal failure reporting "CRC mismatch (Error 4)" with no reset; statuses
1-3 map to their fixed strings; any other non-zero status reports
"Error N"; only status 0 leads to a reset. -/
theorem C5_tng_finalize (s : Nat) (hs : 5 ≤ s) :
    tngFinalize 0 = ⟨true, true, none⟩ ∧
    tngFinalize 4 = ⟨false, false,
      some "Could not flash firmware: CRC mismatch (Error 4)"⟩ ∧
    tngCopyErrorStr 1 = "Device identifier incorrect (Error 1)" ∧
    tngCopyErrorStr 2 = "Magic number incorrect (Error 2)" ∧
    tngCopyErrorStr 3 = "Length malformed (Error 3)" ∧
    tngFinalize s = ⟨false, false,
      some ("Could not flash firmware: Error " ++ toString s)⟩ ∧
    (∀ t, (tngFinalize t).resetCalled = (t == 0)) := by
  have h0 : (s == 0) = false := beq_eq_false_iff_ne.2 (by omega)
  have h1 : (s == 1) = false := beq_eq_false_iff_ne.2 (by omega)
  have h2 : (s == 2) = false := beq_eq_false_iff_ne.2 (by omega)
  have h3 : (s == 3) = false := beq_eq_false_iff_ne.2 (by omega)
  have h4 : (s == 4) = false := beq_eq_false_iff_ne.2 (by omega)
  refine ⟨rfl, rfl, rfl, rfl, rfl, ?_, ?_⟩
  · rw [tngFinalize, tngCopyErrorStr, h0, h1, h2, h3, h4]
    rfl
  · intro t
    by_cases ht : (t == 0) = true
    · rw [tngFinalize, ht]
      simp [ht]
    · have ht' : (t == 0) = false := by
        revert ht
        cases t == 0 <;> simp
      rw [tngFinalize, ht']
      simp [ht']

theorem C5_tng_finalize_witness :
    5 ≤ 7 ∧
    (tngFinalize 0 = ⟨true, true, none⟩ ∧
     tngFinalize 4 = ⟨false, false,
       some "Could not flash firmware: CRC mismatch (Error 4)"⟩ ∧
     tngCopyErrorStr 1 = "Device identifier incorrect (Error 1)" ∧
     tngCopyErrorStr 2 = "Magic number incorrect (Error 2)" ∧
     tngCopyErrorStr 3 = "Length malformed (Error 3)" ∧
     tngFinalize 7 = ⟨false, false,
       some ("Could not flash firmware: Error " ++ toString 7)⟩ ∧
     (∀ t, (tngFinalize t).resetCalled = (t == 0))) :=
  ⟨by omega, C5_tng_finalize 7 (by omega)⟩

/-! ## Classic Bricklet plugin flashing
(`write_bricklet_plugin_classic`, flashing.py lines 1654-1731).

`writeErr position` is the error name when `write_bricklet_plugin` raises
on that chunk, else `none`; `readRes position` is the chunk the device
returns for `read_bricklet_plugin` (`.error e` = the read raised). -/

def plugin_chunk_size : Nat := 32

/-- The chunking loop of flashing.py lines 1674-1681: 32-byte chunks, the
final chunk zero-padded to 32 bytes. -/
def plugin_chunks (plugin : List Nat) : List (List Nat) :=
  if h : plugin = [] then []
  else
    let chunk := plugin.take plugin_chunk_size
    (chunk ++ List.replicate (plugin_chunk_size - chunk.length) 0) ::
      plugin_chunks (plugin.drop plugin_chunk_size)
termination_by plugin.length
decreasing_by
  simp only [List.length_drop]
  have : 0 < plugin.length := List.length_pos.2 h
  simp only [plugin_chunk_size]
  omega

/-- The write loop of flashing.py lines 1687-1699.  Returns the failure
message, if any, and the chunk positions at which a write call was issued
(a failing call is issued before it raises). -/
def classicWriteGo (writeErr : Nat → Option String) :
    List (List Nat) → Nat → Option String × List Nat
  | [], _ => (none, [])
  | _ :: rest, position =>
    match writeErr position with
    | some e => (some ("Could not write Bricklet plugin: " ++ e), [position])
    | none =>
      let p := classicWriteGo writeErr rest (position + 1)
      (p.1, position :: p.2)

/-- The verification loop of flashing.py lines 1712-1729: re-read every
chunk at the same positions and byte-compare; stop at the first failure. -/
def classicVerifyGo (readRes : Nat → Except String (List Nat)) :
    List (List Nat) → Nat → Option String × List Nat
  | [], _ => (none, [])
  | chunk :: rest, position =>
    match readRes position with
    | .error e =>
      (some ("Could not read Bricklet plugin back for verification: " ++ e),
       [position])
    | .ok read_chunk =>
      if read_chunk != chunk then
        (some "Could not flash Bricklet plugin: Verification error",
         [position])
      else
        let p := classicVerifyGo readRes rest (position + 1)
        (p.1, position :: p.2)

structure ClassicTrace where
  result : Except String Unit
  writes : List Nat
  reads : List Nat
  deriving Repr

/-- Function `write_bricklet_plugin_classic`: size check, chunking, write loop,
verification loop; the trace records which chunk positions were written
and read back. -/
def write_bricklet_plugin_classic (plugin : List Nat)
    (writeErr : Nat → Option String)
    (readRes : Nat → Except String (List Nat)) : ClassicTrace :=
  if plugin.length > 4084 then
    ⟨.error ("Could not write Bricklet plugin: Plugin is larger than " ++
        "4084 bytes (the maximum plugin size for classic Bricklets)."),
     [], []⟩
  else
    match classicWriteGo writeErr (plugin_chunks plugin) 0 with
    | (some msg, ws) => ⟨.error msg, ws, []⟩
    | (none, ws) =>
      match classicVerifyGo readRes (plugin_chunks plugin) 0 with
      | (some msg, rs) => ⟨.error msg, ws, rs⟩
      | (none, rs) => ⟨.ok (), ws, rs⟩

lemma plugin_chunks_nil : plugin_chunks [] = [] := by
  rw [plugin_chunks]
  simp

lemma plugin_chunks_cons (plugin : List Nat) (h : plugin ≠ []) :
    plugin_chunks plugin =
      (plugin.take 32 ++
        List.replicate (32 - (plugin.take 32).length) 0) ::
        plugin_chunks (plugin.drop 32) := by
  rw [plugin_chunks]
  simp [h, plugin_chunk_size]

lemma plugin_chunks_length (n : Nat) :
    ∀ plugin : List Nat, plugin.length ≤ n →
      (plugin_chunks plugin).length = (plugin.length + 31) / 32 := by
  induction n with
  | zero =>
    intro plugin h
    have : plugin = [] := List.eq_nil_of_length_eq_zero (by omega)
    subst this
    rw [plugin_chunks_nil]
    rfl
  | succ k ih =>
    intro plugin h
    by_cases hp : plugin = []
    · subst hp
      rw [plugin_chunks_nil]
      rfl
    · have hpos : 0 < plugin.length := List.length_pos.2 hp
      rw [plugin_chunks_cons plugin hp, List.length_cons,
        ih (plugin.drop 32) (by simp only [List.length_drop]; omega),
        List.length_drop]
      omega

lemma plugin_chunks_all_32 (n : Nat) :
    ∀ plugin : List Nat, plugin.length ≤ n →
      ∀ c ∈ plugin_chunks plugin, c.length = 32 := by
  induction n with
  | zero =>
    intro plugin h c hc
    have : plugin = [] := List.eq_nil_of_length_eq_zero (by omega)
    subst this
    rw [plugin_chunks_nil] at hc
    cases hc
  | succ k ih =>
    intro plugin h c hc
    by_cases hp : plugin = []
    · subst hp
      rw [plugin_chunks_nil] at hc
      cases hc
    · have hpos : 0 < plugin.length := List.length_pos.2 hp
      rw [plugin_chunks_cons plugin hp] at hc
      rcases List.mem_cons.1 hc with hc | hc
      · subst hc
        simp only [List.length_append, List.length_replicate,
          List.length_take]
        omega
      · exact ih (plugin.drop 32)
          (by simp only [List.length_drop]; omega) c hc

lemma plugin_chunks_join (n : Nat) :
    ∀ plugin : List Nat, plugin.length ≤ n →
      (plugin_chunks plugin).flatten =
        plugin ++ List.replicate ((32 - plugin.length % 32) % 32) 0 := by
  induction n with
  | zero =>
    intro plugin h
    have : plugin = [] := List.eq_nil_of_length_eq_zero (by omega)
    subst this
    rw [plugin_chunks_nil]
    rfl
  | succ k ih =>
    intro plugin h
    by_cases hp : plugin = []
    · subst hp
      rw [plugin_chunks_nil]
      rfl
    · have hpos : 0 < plugin.length := List.length_pos.2 hp
      rw [plugin_chunks_cons plugin hp, List.flatten_cons,
        ih (plugin.drop 32) (by simp only [List.length_drop]; omega)]
      by_cases h32 : 32 ≤ plugin.length
      · have ht : (plugin.take 32).length = 32 := by
          simp only [List.length_take]
          omega
        rw [ht]
        simp only [Nat.sub_self, List.replicate_zero, List.append_nil,
          List.length_drop]
        rw [← List.append_assoc, List.take_append_drop]
        have harith : (32 - (plugin.length - 32) % 32) % 32 =
            (32 - plugin.length % 32) % 32 := by omega
        rw [harith]
      · have hlt : plugin.length < 32 := by omega
        have htake : plugin.take 32 = plugin := List.take_of_length_le (by omega)
        have hdrop : plugin.drop 32 = [] := List.drop_eq_nil_of_le (by omega)
        rw [htake, hdrop]
        have harith : (32 - plugin.length % 32) % 32 = 32 - plugin.length := by
          omega
        rw [harith]
        simp

lemma classicWriteGo_ok (chunks : List (List Nat)) :
    ∀ position, classicWriteGo (fun _ => none) chunks position =
      (none, List.range' position chunks.length) := by
  induction chunks with
  | nil => intro position; rfl
  | cons c rest ih =>
    intro position
    rw [classicWriteGo, ih (position + 1)]
    rfl

lemma classicVerifyGo_ok (chunks0 : List (List Nat))
    (readRes : Nat → Except String (List Nat))
    (hread : ∀ p, p < chunks0.length → readRes p = .ok (chunks0.getD p [])) :
    ∀ (rest : List (List Nat)) (position : Nat),
      rest = chunks0.drop position →
      classicVerifyGo readRes rest position =
        (none, List.range' position rest.length) := by
  intro rest
  induction rest with
  | nil => intro position h; rfl
  | cons c rs ih =>
    intro position h
    have hlt : position < chunks0.length := by
      by_contra hge
      rw [List.drop_eq_nil_of_le (by omega)] at h
      cases h
    have hdec := List.drop_eq_getElem_cons hlt
    rw [← h] at hdec
    have hc : c = chunks0[position] := by injection hdec
    have hrs : rs = chunks0.drop (position + 1) := by injection hdec
    rw [classicVerifyGo, hread position hlt, List.getD_eq_getElem _ _ hlt,
      ← hc]
    simp only [bne_self_eq_false, Bool.false_eq_true, if_false,
      ih (position + 1) hrs]
    rfl

lemma classicVerifyGo_mismatch (chunks0 : List (List Nat)) (i : Nat)
    (bad : List Nat) (readRes : Nat → Except String (List Nat))
    (hread : ∀ p, p < chunks0.length → p ≠ i →
      readRes p = .ok (chunks0.getD p []))
    (hbad : readRes i = .ok bad) (hne : bad ≠ chunks0.getD i [])
    (hi : i < chunks0.length) :
    ∀ (rest : List (List Nat)) (position : Nat),
      rest = chunks0.drop position → position ≤ i →
      classicVerifyGo readRes rest position =
        (some "Could not flash Bricklet plugin: Verification error",
         List.range' position (i + 1 - position)) := by
  intro rest
  induction rest with
  | nil =>
    intro position h hpi
    exfalso
    have hge : chunks0.length ≤ position := by
      by_contra hlt
      rw [List.drop_eq_getElem_cons (by omega)] at h
      cases h
    omega
  | cons c rs ih =>
    intro position h hpi
    have hlt : position < chunks0.length := by
      by_contra hge
      rw [List.drop_eq_nil_of_le (by omega)] at h
      cases h
    have hdec := List.drop_eq_getElem_cons hlt
    rw [← h] at hdec
    have hc : c = chunks0[position] := by injection hdec
    have hrs : rs = chunks0.drop (position + 1) := by injection hdec
    by_cases hpe : position = i
    · subst hpe
      have hbc : (bad != c) = true := by
        rw [bne_iff_ne, hc, ← List.getD_eq_getElem chunks0 [] hlt]
        exact hne
      rw [classicVerifyGo, hbad]
      simp only [hbc, if_true]
      have h1 : position + 1 - position = 1 := by omega
      rw [h1]
      rfl
    · have hplt : position < i := by omega
      rw [classicVerifyGo, hread position hlt hpe,
        List.getD_eq_getElem _ _ hlt, ← hc]
      simp only [bne_self_eq_false, Bool.false_eq_true, if_false,
        ih (position + 1) hrs (by omega)]
      have h1 : i + 1 - position = (i - position) + 1 := by omega
      have h2 : i + 1 - (position + 1) = i - position := by omega
      rw [h1, h2]
      rfl

/-- C3: a plugin longer than 4084 bytes fails immediately on the size
limit: the failure message is produced and no write call and no read call
is issued. -/
theorem C3_classic_size_limit (plugin : List Nat)
    (writeErr : Nat → Option String)
    (readRes : Nat → Except String (List Nat))
    (hlen : plugin.length > 4084) :
    write_bricklet_plugin_classic plugin writeErr readRes =
      ⟨.error ("Could not write Bricklet plugin: Plugin is larger than " ++
          "4084 bytes (the maximum plugin size for classic Bricklets)."),
       [], []⟩ := by
  rw [write_bricklet_plugin_classic, if_pos hlen]

theorem C3_classic_size_limit_witness :
    (List.replicate 4085 (0 : Nat)).length > 4084 ∧
    write_bricklet_plugin_classic (List.replicate 4085 0) (fun _ => none)
        (fun _ => .ok []) =
      ⟨.error ("Could not write Bricklet plugin: Plugin is larger than " ++
          "4084 bytes (the maximum plugin size for classic Bricklets)."),
       [], []⟩ :=
  ⟨by rw [List.length_replicate]; omega,
   C3_classic_size_limit (List.replicate 4085 0) (fun _ => none)
    (fun _ => .ok []) (by rw [List.length_replicate]; omega)⟩

/-- C4: a plugin of `n ≤ 4084` bytes is split into exactly `ceil(n/32)`
32-byte chunks with the final chunk zero-padded; with a fault-free device
exactly `ceil(n/32)` chunk writes are issued and exactly `ceil(n/32)`
chunks are read back for verification at the same positions. -/
theorem C4_classic_chunking (plugin : List Nat)
    (readRes : Nat → Except String (List Nat))
    (hlen : plugin.length ≤ 4084)
    (hread : ∀ p, p < (plugin_chunks plugin).length →
      readRes p = .ok ((plugin_chunks plugin).getD p [])) :
    (plugin_chunks plugin).length = (plugin.length + 31) / 32 ∧
    (∀ c ∈ plugin_chunks plugin, c.length = 32) ∧
    (plugin_chunks plugin).flatten =
      plugin ++ List.replicate ((32 - plugin.length % 32) % 32) 0 ∧
    write_bricklet_plugin_classic plugin (fun _ => none) readRes =
      ⟨.ok (), List.range' 0 ((plugin.length + 31) / 32),
       List.range' 0 ((plugin.length + 31) / 32)⟩ := by
  have hk := plugin_chunks_length plugin.length plugin le_rfl
  refine ⟨hk, plugin_chunks_all_32 plugin.length plugin le_rfl,
    plugin_chunks_join plugin.length plugin le_rfl, ?_⟩
  rw [write_bricklet_plugin_classic, if_neg (by omega)]
  rw [classicWriteGo_ok (plugin_chunks plugin) 0,
    classicVerifyGo_ok (plugin_chunks plugin) readRes hread
      (plugin_chunks plugin) 0 (List.drop_zero _).symm]
  rw [hk]

/-- A faithful read-back oracle for the C4 witness plugin (100 bytes of
`1`): reading position `q` returns the chunk written there. -/
def c4Read : Nat → Except String (List Nat) := fun q =>
  .ok ((plugin_chunks (List.replicate 100 1)).getD q [])

theorem C4_classic_chunking_witness :
    (List.replicate 100 (1 : Nat)).length ≤ 4084 ∧
    (∀ p, p < (plugin_chunks (List.replicate 100 1)).length →
      c4Read p = .ok ((plugin_chunks (List.replicate 100 1)).getD p [])) ∧
    ((plugin_chunks (List.replicate 100 1)).length =
        ((List.replicate 100 (1 : Nat)).length + 31) / 32 ∧
     (∀ c ∈ plugin_chunks (List.replicate 100 1), c.length = 32) ∧
     (plugin_chunks (List.replicate 100 1)).flatten =
       List.replicate 100 1 ++
         List.replicate
           ((32 - (List.replicate 100 (1 : Nat)).length % 32) % 32) 0 ∧
     write_bricklet_plugin_classic (List.replicate 100 1) (fun _ => none)
         c4Read =
       ⟨.ok (),
        List.range' 0 (((List.replicate 100 (1 : Nat)).length + 31) / 32),
        List.range' 0 (((List.replicate 100 (1 : Nat)).length + 31) / 32)⟩) :=
  ⟨by rw [List.length_replicate]; omega, fun p _ => rfl,
   C4_classic_chunking (List.replicate 100 1) c4Read
     (by rw [List.length_replicate]; omega) (fun p _ => rfl)⟩

/-- The full trace of a classic flash whose read-back verification first
mismatches at chunk `i`: all chunks are written, exactly chunks `0..i` are
read back, and the operation fails with the fixed verification message. -/
lemma classic_mismatch_trace (plugin : List Nat) (i : Nat)
    (bad : List Nat) (readRes : Nat → Except String (List Nat))
    (hlen : plugin.length ≤ 4084)
    (hread : ∀ p, p < (plugin_chunks plugin).length → p ≠ i →
      readRes p = .ok ((plugin_chunks plugin).getD p []))
    (hbad : readRes i = .ok bad)
    (hne : bad ≠ (plugin_chunks plugin).getD i [])
    (hi : i < (plugin_chunks plugin).length) :
    write_bricklet_plugin_classic plugin (fun _ => none) readRes =
      ⟨.error "Could not flash Bricklet plugin: Verification error",
       List.range' 0 (plugin_chunks plugin).length,
       List.range' 0 (i + 1)⟩ := by
  rw [write_bricklet_plugin_classic, if_neg (by omega)]
  rw [classicWriteGo_ok (plugin_chunks plugin) 0,
    classicVerifyGo_mismatch (plugin_chunks plugin) i bad readRes hread hbad
      hne hi (plugin_chunks plugin) 0 (List.drop_zero _).symm (by omega)]
  rw [Nat.sub_zero]

/-- C8 (amended): when read-back verification finds its first mismatch at
chunk index `i`, the loop stops there — exactly chunks `0..i` are read
back, so the trace identifies the index — but the reported error is the
fixed message "Could not flash Bricklet plugin: Verification error", which
does not carry the chunk index. -/
theorem C8_classic_verify_mismatch (plugin : List Nat) (i : Nat)
    (bad : List Nat) (readRes : Nat → Except String (List Nat))
    (hlen : plugin.length ≤ 4084)
    (hread : ∀ p, p < (plugin_chunks plugin).length → p ≠ i →
      readRes p = .ok ((plugin_chunks plugin).getD p []))
    (hbad : readRes i = .ok bad)
    (hne : bad ≠ (plugin_chunks plugin).getD i [])
    (hi : i < (plugin_chunks plugin).length) :
    write_bricklet_plugin_classic plugin (fun _ => none) readRes =
      ⟨.error "Could not flash Bricklet plugin: Verification error",
       List.range' 0 (plugin_chunks plugin).length,
       List.range' 0 (i + 1)⟩ :=
  classic_mismatch_trace plugin i bad readRes hlen hread hbad hne hi

/-- The concrete plugin for the C8 counterexample: 100 bytes of `1`. -/
def c8Plugin : List Nat := List.replicate 100 1

/-- A read-back oracle returning the written chunks faithfully except at
position `k`, where it returns 32 zero bytes. -/
def c8Read (k : Nat) : Nat → Except String (List Nat) := fun position =>
  if position == k then .ok (List.replicate 32 0)
  else .ok ((plugin_chunks c8Plugin).getD position [])

lemma c8_chunks :
    plugin_chunks c8Plugin =
      [List.replicate 32 1, List.replicate 32 1, List.replicate 32 1,
       List.replicate 4 1 ++ List.replicate 28 0] := by
  rw [c8Plugin]
  rw [plugin_chunks_cons _ (by intro h; cases congrArg List.length h)]
  rw [List.take_replicate, List.drop_replicate]
  norm_num
  rw [plugin_chunks_cons _ (by intro h; cases congrArg List.length h)]
  rw [List.take_replicate, List.drop_replicate]
  norm_num
  rw [plugin_chunks_cons _ (by intro h; cases congrArg List.length h)]
  rw [List.take_replicate, List.drop_replicate]
  norm_num
  rw [plugin_chunks_cons _ (by intro h; cases congrArg List.length h)]
  rw [List.take_replicate, List.drop_replicate]
  norm_num
  rw [plugin_chunks_nil]

/-- C8 counterexample: a forced read-back mismatch at chunk index 2 and
one at chunk index 1 produce the identical fixed failure message
"Could not flash Bricklet plugin: Verification error", so the
verification-failure error does not reference the mismatching chunk
index. -/
theorem C8_counterexample :
    (write_bricklet_plugin_classic c8Plugin (fun _ => none)
        (c8Read 2)).result =
      .error "Could not flash Bricklet plugin: Verification error" ∧
    (write_bricklet_plugin_classic c8Plugin (fun _ => none)
        (c8Read 1)).result =
      (write_bricklet_plugin_classic c8Plugin (fun _ => none)
        (c8Read 2)).result ∧
    (write_bricklet_plugin_classic c8Plugin (fun _ => none)
        (c8Read 2)).reads = [0, 1, 2] := by
  have hlen : c8Plugin.length ≤ 4084 := by
    rw [c8Plugin, List.length_replicate]
    omega
  have hi2 : 2 < (plugin_chunks c8Plugin).length := by
    rw [c8_chunks]
    norm_num
  have hi1 : 1 < (plugin_chunks c8Plugin).length := by
    rw [c8_chunks]
    norm_num
  have hb2 : c8Read 2 2 = .ok (List.replicate 32 0) := by simp [c8Read]
  have hb1 : c8Read 1 1 = .ok (List.replicate 32 0) := by simp [c8Read]
  have hr2 : ∀ p, p < (plugin_chunks c8Plugin).length → p ≠ 2 →
      c8Read 2 p = .ok ((plugin_chunks c8Plugin).getD p []) := by
    intro p _ hp
    simp [c8Read, hp]
  have hr1 : ∀ p, p < (plugin_chunks c8Plugin).length → p ≠ 1 →
      c8Read 1 p = .ok ((plugin_chunks c8Plugin).getD p []) := by
    intro p _ hp
    simp [c8Read, hp]
  have hn2 : List.replicate 32 0 ≠ (plugin_chunks c8Plugin).getD 2 [] := by
    rw [c8_chunks]
    decide
  have hn1 : List.replicate 32 0 ≠ (plugin_chunks c8Plugin).getD 1 [] := by
    rw [c8_chunks]
    decide
  have h2 := classic_mismatch_trace c8Plugin 2 (List.replicate 32 0)
    (c8Read 2) hlen hr2 hb2 hn2 hi2
  have h1 := classic_mismatch_trace c8Plugin 1 (List.replicate 32 0)
    (c8Read 1) hlen hr1 hb1 hn1 hi1
  rw [h1, h2]
  exact ⟨rfl, rfl, by decide⟩

theorem C8_classic_verify_mismatch_witness :
    c8Plugin.length ≤ 4084 ∧
    (∀ p, p < (plugin_chunks c8Plugin).length → p ≠ 2 →
      c8Read 2 p = .ok ((plugin_chunks c8Plugin).getD p [])) ∧
    c8Read 2 2 = .ok (List.replicate 32 0) ∧
    List.replicate 32 0 ≠ (plugin_chunks c8Plugin).getD 2 [] ∧
    2 < (plugin_chunks c8Plugin).length ∧
    write_bricklet_plugin_classic c8Plugin (fun _ => none) (c8Read 2) =
      ⟨.error "Could not flash Bricklet plugin: Verification error",
       List.range' 0 (plugin_chunks c8Plugin).length,
       List.range' 0 (2 + 1)⟩ := by
  have hlen : c8Plugin.length ≤ 4084 := by
    rw [c8Plugin, List.length_replicate]
    omega
  have hi2 : 2 < (plugin_chunks c8Plugin).length := by
    rw [c8_chunks]
    norm_num
  have hb2 : c8Read 2 2 = .ok (List.replicate 32 0) := by simp [c8Read]
  have hr2 : ∀ p, p < (plugin_chunks c8Plugin).length → p ≠ 2 →
      c8Read 2 p = .ok ((plugin_chunks c8Plugin).getD p []) := by
    intro p _ hp
    simp [c8Read, hp]
  have hn2 : List.replicate 32 0 ≠ (plugin_chunks c8Plugin).getD 2 [] := by
    rw [c8_chunks]
    decide
  exact ⟨hlen, hr2, hb2, hn2, hi2,
    C8_classic_verify_mismatch c8Plugin 2 (List.replicate 32 0) (c8Read 2)
      hlen hr2 hb2 hn2 hi2⟩

/-! ## UID writing (`uid_save_clicked`, flashing.py lines 1197-1237).

The Base58 helpers (`BASE58`, `base58decode`) live in the generated
`bindings/ip_connection.py`, which is not part of this tree; they are
taken as parameters (an alphabet and a decode function, `none` standing
for a raised exception), so every theorem below holds for any
implementation of them.  `writeResult` is the outcome of the device
`write_uid`/`write_bricklet_uid` call, `readResult` the outcome of reading
the UID back; the second component of the result counts the device calls
issued. -/

inductive UidOutcome where
  | ok : String → UidOutcome
  | fail : String → UidOutcome
  deriving Repr, DecidableEq

def uid_save_clicked (BASE58 : List Char) (base58decode : String → Option Nat)
    (writeResult : Option String) (readResult : Except String String)
    (uid : String) : UidOutcome × Nat :=
  if uid.length == 0 then (.fail "UID cannot be empty", 0)
  else
    match uid.data.find? (fun c => !(BASE58.contains c)) with
    | some c =>
      (.fail ("UID cannot contain " ++ String.mk ['\x27', c, '\x27']), 0)
    | none =>
      match base58decode uid with
      | none => (.fail "UID is invalid", 0)
      | some v =>
        if v > 0xFFFFFFFF then (.fail "UID is too long", 0)
        else
          match writeResult with
          | some e => (.fail ("Could not write UID: " ++ e), 1)
          | none =>
            match readResult with
            | .error e => (.fail ("Could not read written UID: " ++ e), 2)
            | .ok uid_read =>
              if uid == uid_read then
                (.ok ("Successfully wrote UID.\nNew UID will be used " ++
                  "after reset of the connected Brick."), 2)
              else (.fail "Could not write UID: Verification failed", 2)

/-- C10: a device write is issued only when the entered UID is non-empty,
every character is in the Base58 alphabet and the decoded value is at most
0xFFFFFFFF; any violation fails with its message and performs no device
call; after a successful write the UID is read back and success is
reported only when the read-back string equals the written UID, otherwise
a verification failure is reported.  Stated for every Base58 alphabet and
decode function, since those helpers live outside this tree. -/
theorem C10_uid_save (BASE58 : List Char) (dec : String → Option Nat)
    (writeResult : Option String) (readResult : Except String String)
    (uid : String) :
    ((uid_save_clicked BASE58 dec writeResult readResult uid).2 ≥ 1 →
      uid.length ≠ 0 ∧ (∀ c ∈ uid.data, BASE58.contains c = true) ∧
      ∃ v, dec uid = some v ∧ v ≤ 0xFFFFFFFF) ∧
    (uid.length = 0 →
      uid_save_clicked BASE58 dec writeResult readResult uid =
        (.fail "UID cannot be empty", 0)) ∧
    (∀ c, uid.length ≠ 0 →
      uid.data.find? (fun x => !(BASE58.contains x)) = some c →
      uid_save_clicked BASE58 dec writeResult readResult uid =
        (.fail ("UID cannot contain " ++ String.mk ['\x27', c, '\x27']), 0)) ∧
    (uid.length ≠ 0 →
      uid.data.find? (fun x => !(BASE58.contains x)) = none →
      dec uid = none →
      uid_save_clicked BASE58 dec writeResult readResult uid =
        (.fail "UID is invalid", 0)) ∧
    (∀ v, uid.length ≠ 0 →
      uid.data.find? (fun x => !(BASE58.contains x)) = none →
      dec uid = some v → v > 0xFFFFFFFF →
      uid_save_clicked BASE58 dec writeResult readResult uid =
        (.fail "UID is too long", 0)) ∧
    (∀ v r, uid.length ≠ 0 →
      uid.data.find? (fun x => !(BASE58.contains x)) = none →
      dec uid = some v → v ≤ 0xFFFFFFFF →
      writeResult = none → readResult = .ok r →
      ((uid = r →
        uid_save_clicked BASE58 dec writeResult readResult uid =
          (.ok ("Successfully wrote UID.\nNew UID will be used " ++
            "after reset of the connected Brick."), 2)) ∧
       (uid ≠ r →
        uid_save_clicked BASE58 dec writeResult readResult uid =
          (.fail "Could not write UID: Verification failed", 2)))) := by
  refine ⟨?_, ?_, ?_, ?_, ?_, ?_⟩
  · intro hcalls
    rw [uid_save_clicked.eq_def] at hcalls
    by_cases h0 : (uid.length == 0) = true
    · rw [if_pos h0] at hcalls
      simp at hcalls
    · have h0' : (uid.length == 0) = false := by
        revert h0
        cases uid.length == 0 <;> simp
      rw [h0'] at hcalls
      simp only [Bool.false_eq_true, if_false] at hcalls
      match hf : uid.data.find? (fun x => !(BASE58.contains x)) with
      | some c =>
        rw [hf] at hcalls
        simp at hcalls
      | none =>
        rw [hf] at hcalls
        match hd : dec uid with
        | none =>
          rw [hd] at hcalls
          simp at hcalls
        | some v =>
          rw [hd] at hcalls
          by_cases hv : (v > 0xFFFFFFFF)
          · simp [hv] at hcalls
          · refine ⟨beq_eq_false_iff_ne.1 h0', ?_, v, rfl, by omega⟩
            intro c hc
            have := List.find?_eq_none.1 hf c hc
            revert this
            cases BASE58.contains c <;> simp
  · intro h0
    rw [uid_save_clicked.eq_def, if_pos (by simp [h0])]
  · intro c hne hf
    have h0' : (uid.length == 0) = false := by simp [hne]
    rw [uid_save_clicked.eq_def, h0']
    simp only [Bool.false_eq_true, if_false]
    rw [hf]
  · intro hne hf hd
    have h0' : (uid.length == 0) = false := by simp [hne]
    rw [uid_save_clicked.eq_def, h0']
    simp only [Bool.false_eq_true, if_false]
    rw [hf, hd]
  · intro v hne hf hd hv
    have h0' : (uid.length == 0) = false := by simp [hne]
    rw [uid_save_clicked.eq_def, h0']
    simp only [Bool.false_eq_true, if_false]
    rw [hf, hd]
    simp [hv]
  · intro v r hne hf hd hv hw hr
    have h0' : (uid.length == 0) = false := by simp [hne]
    have hnv : ¬(v > 0xFFFFFFFF) := by omega
    constructor
    · intro heq
      rw [uid_save_clicked.eq_def, h0']
      simp only [Bool.false_eq_true, if_false]
      rw [hf, hd, hw, hr]
      simp [hnv, heq]
    · intro hneq
      rw [uid_save_clicked.eq_def, h0']
      simp only [Bool.false_eq_true, if_false]
      rw [hf, hd, hw, hr]
      simp [hnv, hneq]

theorem C10_uid_save_witness :
    ((uid_save_clicked ['1'] (fun _ => some 5) none (.ok "1") "1").2 ≥ 1 →
      ("1" : String).length ≠ 0 ∧
      (∀ c ∈ ("1" : String).data, List.contains ['1'] c = true) ∧
      ∃ v, (fun _ : String => some 5) "1" = some v ∧ v ≤ 0xFFFFFFFF) ∧
    (("1" : String).length = 0 →
      uid_save_clicked ['1'] (fun _ => some 5) none (.ok "1") "1" =
        (.fail "UID cannot be empty", 0)) ∧
    (∀ c, ("1" : String).length ≠ 0 →
      ("1" : String).data.find? (fun x => !(List.contains ['1'] x)) =
        some c →
      uid_save_clicked ['1'] (fun _ => some 5) none (.ok "1") "1" =
        (.fail ("UID cannot contain " ++ String.mk ['\x27', c, '\x27']), 0)) ∧
    (("1" : String).length ≠ 0 →
      ("1" : String).data.find? (fun x => !(List.contains ['1'] x)) = none →
      (fun _ : String => some 5) "1" = none →
      uid_save_clicked ['1'] (fun _ => some 5) none (.ok "1") "1" =
        (.fail "UID is invalid", 0)) ∧
    (∀ v, ("1" : String).length ≠ 0 →
      ("1" : String).data.find? (fun x => !(List.contains ['1'] x)) = none →
      (fun _ : String => some 5) "1" = some v → v > 0xFFFFFFFF →
      uid_save_clicked ['1'] (fun _ => some 5) none (.ok "1") "1" =
        (.fail "UID is too long", 0)) ∧
    (∀ v r, ("1" : String).length ≠ 0 →
      ("1" : String).data.find? (fun x => !(List.contains ['1'] x)) = none →
      (fun _ : String => some 5) "1" = some v → v ≤ 0xFFFFFFFF →
      (none : Option String) = none →
      (.ok "1" : Except String String) = .ok r →
      (("1" : String) = r →
        uid_save_clicked ['1'] (fun _ => some 5) none (.ok "1") "1" =
          (.ok ("Successfully wrote UID.\nNew UID will be used " ++
            "after reset of the connected Brick."), 2)) ∧
      (("1" : String) ≠ r →
        uid_save_clicked ['1'] (fun _ => some 5) none (.ok "1") "1" =
          (.fail "Could not write UID: Verification failed", 2))) :=
  C10_uid_save ['1'] (fun _ => some 5) none (.ok "1") "1"

end Brickv
